/-
Verification of the generative-AI call core of vertex-ai-mcp-server.

The development shallowly embeds the retry/classification engine and the
streaming / non-streaming response-processing paths of `callGenerativeAI`
(src/vertex_ai_client.ts variant using both providers), the configuration
validation of `config.ts`, and the grounding/tool-filtering logic.

Conventions of the embedding:
- JavaScript strings become Lean `String`; `process.env.X` becomes an
  `Option String` field; JS truthiness of an optional string is modelled by
  `truthyStr` (present and non-empty).
- Exceptions become `Except String` with the thrown message.
- The provider SDK is a stub: each retry attempt consumes one
  `ProviderEvent` describing what the SDK call did on that attempt.
- `Math.random() * 500` jitter becomes an arbitrary function
  `jitter : Nat → ℚ`, constrained to `[0, 500)` where a claim needs it.
-/
import Mathlib

namespace VertexMcp

instance instDecEqExcept {ε α : Type} [DecidableEq ε] [DecidableEq α] :
    DecidableEq (Except ε α) := fun x y =>
  match x, y with
  | Except.ok a, Except.ok b =>
    if h : a = b then Decidable.isTrue (congrArg Except.ok h)
    else Decidable.isFalse (fun hc => h (Except.ok.inj hc))
  | Except.error a, Except.error b =>
    if h : a = b then Decidable.isTrue (congrArg Except.error h)
    else Decidable.isFalse (fun hc => h (Except.error.inj hc))
  | Except.ok _, Except.error _ => Decidable.isFalse (fun hc => Except.noConfusion hc)
  | Except.error _, Except.ok _ => Decidable.isFalse (fun hc => Except.noConfusion hc)

/-- JS `String.prototype.includes`: `jsContains s pat` is true iff `pat`
occurs as a contiguous substring of `s`. -/
def jsContains (s pat : String) : Bool :=
  (List.range (s.data.length + 1)).any fun i => pat.data.isPrefixOf (s.data.drop i)

/-- JS `String.prototype.toLowerCase`, for the ASCII strings this code
compares (lowers the characters one by one). -/
def jsToLower (s : String) : String :=
  ⟨s.data.map Char.toLower⟩

/-- JS truthiness of an optional string: defined (not `undefined`) and
non-empty. -/
def truthyStr : Option String → Bool
  | none => false
  | some s => s != ""

/-- Error classification, from `callGenerativeAI`'s catch block:
`errorMessageString.includes('blocked') || errorMessageString.includes('safety')`
on the lowercased message. -/
def isBlockingError (msg : String) : Bool :=
  jsContains (jsToLower msg) "blocked" || jsContains (jsToLower msg) "safety"

/-- Error classification, from `callGenerativeAI`'s catch block: retryable
iff not blocking and the lowercased message contains one of the transient
fault signatures. -/
def isRetryableError (msg : String) : Bool :=
  !isBlockingError msg &&
    (jsContains (jsToLower msg) "429" ||
     jsContains (jsToLower msg) "500" ||
     jsContains (jsToLower msg) "503" ||
     jsContains (jsToLower msg) "deadline_exceeded" ||
     jsContains (jsToLower msg) "internal" ||
     jsContains (jsToLower msg) "network error" ||
     jsContains (jsToLower msg) "socket hang up" ||
     jsContains (jsToLower msg) "unavailable" ||
     jsContains (jsToLower msg) "could not connect")

/-- The two providers of `config.ts` (`AIProvider = "vertex" | "gemini"`). -/
inductive AIProvider where
  | vertex
  | gemini
deriving Repr, DecidableEq

-- ---------------------------------------------------------------------------
-- Non-streaming and streaming response processing (per attempt), from the
-- body of the retry loop of callGenerativeAI.
-- ---------------------------------------------------------------------------

/-- A Vertex non-streaming response as far as `callGenerativeAI` inspects it:
`result.response.candidates?.[0]?.content?.parts?.[0]?.text`,
`result.response.promptFeedback?.blockReason`, and the candidate's
`safetyRatings` (only logged). -/
structure VertexNonStreamResponse where
  candidateText : Option String
  blockReason : Option String
  safetyRatings : List String
deriving Repr, DecidableEq

/-- The Vertex block condition
`blockReason && blockReason !== 'BLOCK_REASON_UNSPECIFIED' && blockReason !== 'OTHER'`. -/
def vertexBlockCond : Option String → Bool
  | none => false
  | some s => s != "" && s != "BLOCK_REASON_UNSPECIFIED" && s != "OTHER"

/-- Vertex non-streaming branch of `callGenerativeAI`: extract the first
candidate's first text part, raise on a (non-exempt) block reason, then
raise if no non-empty text was extracted. -/
def vertexNonStreaming (r : VertexNonStreamResponse) : Except String String :=
  if vertexBlockCond r.blockReason then
    Except.error ("Vertex Content generation blocked. Reason: " ++ r.blockReason.getD "")
  else
    match r.candidateText with
    | some t =>
      if t = "" then
        Except.error "Failed to extract valid text response from vertex AI (non-streaming)."
      else
        Except.ok t
    | none => Except.error "Failed to extract valid text response from vertex AI (non-streaming)."

/-- A Gemini non-streaming response as far as `callGenerativeAI` inspects it:
`result.response.text()` (which may throw, in which case the extraction is
only logged), `promptFeedback?.blockReason` and the first candidate's
`finishReason`. -/
structure GeminiNonStreamResponse where
  text : Except String String
  blockReason : Option String
  finishReason : Option String
deriving Repr, DecidableEq

/-- Gemini non-streaming branch of `callGenerativeAI`: try to extract
`response.text()` (swallowing an extraction error), raise on ANY truthy
block reason, raise on finish reason SAFETY, then raise if no non-empty
text was extracted. -/
def geminiNonStreaming (r : GeminiNonStreamResponse) : Except String String :=
  let responseText : Option String :=
    match r.text with
    | Except.ok t => some t
    | Except.error _ => none
  if truthyStr r.blockReason then
    Except.error ("Gemini Content generation blocked. Response Reason: " ++ r.blockReason.getD "")
  else if r.finishReason = some "SAFETY" then
    Except.error "Gemini Content generation blocked. Response Finish Reason: SAFETY"
  else
    match responseText with
    | some t =>
      if t = "" then
        Except.error "Failed to extract valid text response from gemini AI (non-streaming)."
      else
        Except.ok t
    | none => Except.error "Failed to extract valid text response from gemini AI (non-streaming)."

/-- The catch around the Gemini `generateContent` call itself: a thrown
error whose message mentions safety / prompt blocked, or whose `status` is
`'BLOCKED'`, is converted to a blocked error; anything else is rethrown. -/
def geminiCallThrow (msg : String) (statusBlocked : Bool) : String :=
  if jsContains (jsToLower msg) "safety" || jsContains (jsToLower msg) "prompt blocked" || statusBlocked then
    "Gemini Content generation blocked. Call Reason: " ++ msg
  else
    msg

/-- Vertex streaming data as far as `callGenerativeAI` inspects it: for each
chunk the optional first-part text, and the final aggregated response's
block reason, safety ratings and first-candidate text. -/
structure VertexStreamData where
  chunkTexts : List (Option String)
  aggBlockReason : Option String
  aggSafetyRatings : List String
  aggCandidateText : Option String
deriving Repr, DecidableEq

/-- The streaming accumulator of the Vertex branch: `accumulatedText += textPart`
for every chunk whose first part is a string. -/
def vertexAccumulate (chunks : List (Option String)) : String :=
  chunks.foldl (fun acc o => match o with | some t => acc ++ t | none => acc) ""

/-- Vertex streaming branch of `callGenerativeAI`: accumulate chunk texts,
raise on a (non-exempt) aggregated block reason, fall back to the
aggregate's first-candidate text when the accumulator is empty, then raise
if still empty. -/
def vertexStreaming (r : VertexStreamData) : Except String String :=
  let accumulatedText := vertexAccumulate r.chunkTexts
  if vertexBlockCond r.aggBlockReason then
    Except.error ("Vertex Content generation blocked. Reason: " ++ r.aggBlockReason.getD "")
  else
    let finalText :=
      if accumulatedText = "" then
        match r.aggCandidateText with
        | some t => t
        | none => accumulatedText
      else accumulatedText
    if finalText = "" then
      Except.error "Received empty or non-text response from vertex AI stream."
    else
      Except.ok finalText

/-- The aggregated (end-of-stream) Gemini response: block reason, finish
reason, and `response.text()` which may throw. -/
structure GeminiAggResponse where
  blockReason : Option String
  finishReason : Option String
  text : Except String String
deriving Repr, DecidableEq

/-- Gemini streaming data: each chunk's `chunk.text()` result (value or
thrown message), and `await streamResult.response` (aggregate or thrown
message). -/
structure GeminiStreamData where
  chunks : List (Except String String)
  aggResponse : Except String GeminiAggResponse
deriving Repr, DecidableEq

/-- The per-chunk loop of the Gemini streaming branch: accumulate
`chunk.text()`; a throwing chunk is skipped unless its message mentions
safety, in which case the whole attempt raises a blocked error. -/
def geminiAccumulate : List (Except String String) → String → Except String String
  | [], acc => Except.ok acc
  | Except.ok t :: rest, acc => geminiAccumulate rest (acc ++ t)
  | Except.error m :: rest, acc =>
    if jsContains (jsToLower m) "safety" then
      Except.error ("Gemini Content generation blocked during stream. Reason: " ++ m)
    else
      geminiAccumulate rest acc

/-- Gemini streaming branch of `callGenerativeAI`: accumulate chunk texts,
obtain the aggregated response (a throw mentioning safety becomes a blocked
error, any other throw is rethrown), raise on ANY truthy aggregated block
reason or finish reason SAFETY, fall back to the aggregate's `text()` when
the accumulator is empty, then raise if still empty. -/
def geminiStreaming (r : GeminiStreamData) : Except String String :=
  match geminiAccumulate r.chunks "" with
  | Except.error m => Except.error m
  | Except.ok accumulatedText =>
    match r.aggResponse with
    | Except.error m =>
      if jsContains (jsToLower m) "safety" then
        Except.error ("Gemini Content generation blocked aggregating response. Reason: " ++ m)
      else
        Except.error m
    | Except.ok agg =>
      if truthyStr agg.blockReason then
        Except.error ("Gemini Content generation blocked. Aggregated Reason: " ++ agg.blockReason.getD "")
      else if agg.finishReason = some "SAFETY" then
        Except.error "Gemini Content generation blocked. Aggregated Finish Reason: SAFETY"
      else
        let finalText :=
          if accumulatedText = "" then
            match agg.text with
            | Except.ok t => t
            | Except.error _ => accumulatedText
          else accumulatedText
        if finalText = "" then
          Except.error "Received empty or non-text response from gemini AI stream."
        else
          Except.ok finalText

/-- What the provider SDK did on one attempt of the retry loop: threw
before any response processing (network fault, 503, ...), or returned the
data of one of the four provider/mode branches, or (Gemini non-streaming
only) threw inside the wrapped `generateContent` call. -/
inductive ProviderEvent where
  | throwBefore (msg : String)
  | vertexNS (r : VertexNonStreamResponse)
  | vertexS (r : VertexStreamData)
  | geminiNS (r : GeminiNonStreamResponse)
  | geminiNSThrow (msg : String) (statusBlocked : Bool)
  | geminiS (r : GeminiStreamData)
deriving Repr, DecidableEq

/-- Outcome of the `try` body of one attempt of `callGenerativeAI`:
the returned text, or the message of the raised error. -/
def attemptOutcome : ProviderEvent → Except String String
  | ProviderEvent.throwBefore m => Except.error m
  | ProviderEvent.vertexNS r => vertexNonStreaming r
  | ProviderEvent.vertexS r => vertexStreaming r
  | ProviderEvent.geminiNS r => geminiNonStreaming r
  | ProviderEvent.geminiNSThrow m b => Except.error (geminiCallThrow m b)
  | ProviderEvent.geminiS r => geminiStreaming r

-- ---------------------------------------------------------------------------
-- Retry / failure-classification engine (the `for attempt in 0..maxRetries`
-- loop with its catch block).
-- ---------------------------------------------------------------------------

/-- The final `McpError` thrown by the catch block's else branch, kept as the
raw message of the last attempt together with its classification (the
thrown `finalErrorMessage` is a formatting of exactly these data plus the
provider name). -/
structure FinalErr where
  message : String
  isBlocking : Bool
  isRetryable : Bool
deriving Repr, DecidableEq

/-- Observable trace of one `callGenerativeAI` invocation: the returned text
or final error, the list of backoff sleep durations (ms) in order, and the
number of attempts executed. -/
structure CallTrace where
  result : Except FinalErr String
  sleeps : List ℚ
  attempts : Nat
deriving Repr, DecidableEq

/-- The retry loop of `callGenerativeAI` from attempt index `attempt`, with
`remaining = maxRetries - attempt` retries still allowed (so the guard
`attempt < maxRetries` of the source is exactly `remaining > 0`).
On a retryable failure with retries remaining it sleeps
`retryDelayMs * 2 ^ attempt + jitter attempt` and continues; otherwise the
catch block's else branch throws the final error. -/
def retryGo (stub : Nat → Except String String) (jitter : Nat → ℚ)
    (retryDelayMs : ℚ) : Nat → Nat → CallTrace
  | attempt, 0 =>
    match stub attempt with
    | Except.ok t => ⟨Except.ok t, [], 1⟩
    | Except.error m => ⟨Except.error ⟨m, isBlockingError m, isRetryableError m⟩, [], 1⟩
  | attempt, remaining + 1 =>
    match stub attempt with
    | Except.ok t => ⟨Except.ok t, [], 1⟩
    | Except.error m =>
      if isRetryableError m then
        let delay := retryDelayMs * 2 ^ attempt + jitter attempt
        let rest := retryGo stub jitter retryDelayMs (attempt + 1) remaining
        ⟨rest.result, delay :: rest.sleeps, rest.attempts + 1⟩
      else
        ⟨Except.error ⟨m, isBlockingError m, isRetryableError m⟩, [], 1⟩

/-- `callGenerativeAI`, observed as a trace: run the retry loop from attempt
0 with `maxRetries` retries allowed, the provider stub supplying one
`ProviderEvent` per attempt. -/
def callGenerativeAI (maxRetries : Nat) (retryDelayMs : ℚ)
    (events : Nat → ProviderEvent) (jitter : Nat → ℚ) : CallTrace :=
  retryGo (fun i => attemptOutcome (events i)) jitter retryDelayMs 0 maxRetries

-- ---------------------------------------------------------------------------
-- Configuration (config.ts): provider selection and startup validation.
-- ---------------------------------------------------------------------------

/-- The environment variables read by `getAIProvider` and `validateConfig`. -/
structure Env where
  AI_PROVIDER : Option String
  GOOGLE_CLOUD_PROJECT : Option String
  GEMINI_API_KEY : Option String
deriving Repr, DecidableEq

/-- `getAIProvider`:
`process.env.AI_PROVIDER?.toLowerCase() === "gemini" ? "gemini" : "vertex"`. -/
def getAIProvider (env : Env) : AIProvider :=
  if env.AI_PROVIDER.map jsToLower = some "gemini" then AIProvider.gemini
  else AIProvider.vertex

/-- `validateConfig`: `process.exit(1)` with a descriptive message (modelled
as `Except.error`) when the selected provider's credential env var is
falsy; otherwise the function returns normally. -/
def validateConfig (env : Env) : Except String Unit :=
  if getAIProvider env = AIProvider.vertex && !truthyStr env.GOOGLE_CLOUD_PROJECT then
    Except.error "Error: AI_PROVIDER is 'vertex' but GOOGLE_CLOUD_PROJECT environment variable is not set."
  else if getAIProvider env = AIProvider.gemini && !truthyStr env.GEMINI_API_KEY then
    Except.error "Error: AI_PROVIDER is 'gemini' but GEMINI_API_KEY environment variable is not set."
  else
    Except.ok ()

-- ---------------------------------------------------------------------------
-- Tool handling of callGenerativeAI (grounding detection, model path
-- selection, tool filtering).
-- ---------------------------------------------------------------------------

/-- A tool declaration as far as `callGenerativeAI` inspects it: whether its
`googleSearchRetrieval` property is truthy (the web-search declaration). -/
structure VTool where
  googleSearchRetrieval : Bool
deriving Repr, DecidableEq

/-- `tools?.some(tool => tool.googleSearchRetrieval)` (undefined tools give
`undefined`, which is falsy). -/
def isGroundingRequested (tools : Option (List VTool)) : Bool :=
  match tools with
  | none => false
  | some ts => ts.any (fun t => t.googleSearchRetrieval)

/-- The two ways a Vertex model instance is obtained: through
`client.preview.getGenerativeModel` (grounding-capable surface) or plain
`client.getGenerativeModel`. -/
inductive VertexModelPath where
  | previewPath
  | defaultPath
deriving Repr, DecidableEq

/-- Vertex model-instance selection of `callGenerativeAI`:
the preview surface exactly when grounding is requested. -/
def vertexModelSelection (tools : Option (List VTool)) : VertexModelPath :=
  if isGroundingRequested tools then VertexModelPath.previewPath
  else VertexModelPath.defaultPath

/-- The tool-list adjustment of `callGenerativeAI`: for the gemini provider
all tools are dropped; for the vertex provider, when grounding is requested
alongside other tools (list length > 1), only the search tools are kept. -/
def filteredToolsForVertex (provider : AIProvider) (tools : Option (List VTool)) :
    Option (List VTool) :=
  match provider, tools with
  | AIProvider.gemini, some _ => none
  | AIProvider.vertex, some ts =>
    if isGroundingRequested (some ts) && ts.length > 1 then
      some (ts.filter (fun t => t.googleSearchRetrieval))
    else some ts
  | _, none => none

/-- An attempt outcome counts as raising ContentBlocked when it is an error
whose message carries the block/safety signature the catch block tests. -/
def raisesBlocked (e : Except String String) : Prop :=
  ∃ m, e = Except.error m ∧ isBlockingError m = true

-- ---------------------------------------------------------------------------
-- Helper lemmas.
-- ---------------------------------------------------------------------------

theorem isRetryableError_eq_false_of_blocking {m : String}
    (h : isBlockingError m = true) : isRetryableError m = false := by
  simp [isRetryableError, h]

theorem retryGo_ok {stub : Nat → Except String String} {jitter : Nat → ℚ}
    {delay : ℚ} {attempt remaining : Nat} {t : String}
    (h : stub attempt = Except.ok t) :
    retryGo stub jitter delay attempt remaining = ⟨Except.ok t, [], 1⟩ := by
  cases remaining <;> simp [retryGo, h]

theorem retryGo_error_not_retryable {stub : Nat → Except String String}
    {jitter : Nat → ℚ} {delay : ℚ} {attempt remaining : Nat} {m : String}
    (h : stub attempt = Except.error m) (hr : isRetryableError m = false) :
    retryGo stub jitter delay attempt remaining =
      ⟨Except.error ⟨m, isBlockingError m, false⟩, [], 1⟩ := by
  cases remaining <;> simp [retryGo, h, hr]

theorem retryGo_allfail {stub : Nat → Except String String} {jitter : Nat → ℚ}
    {delay : ℚ}
    (h : ∀ i, ∃ m, stub i = Except.error m ∧ isRetryableError m = true) :
    ∀ remaining attempt,
      (retryGo stub jitter delay attempt remaining).attempts = remaining + 1 ∧
      ∃ e, (retryGo stub jitter delay attempt remaining).result = Except.error e := by
  intro remaining
  induction remaining with
  | zero =>
    intro attempt
    obtain ⟨m, hm, _⟩ := h attempt
    simp [retryGo, hm]
  | succ r ih =>
    intro attempt
    obtain ⟨m, hm, hr⟩ := h attempt
    obtain ⟨iha, ihe⟩ := ih (attempt + 1)
    simp [retryGo, hm, hr, iha, ihe]

theorem retryGo_ok_of_stub {stub : Nat → Except String String} {jitter : Nat → ℚ}
    {delay : ℚ} :
    ∀ {remaining attempt : Nat} {s : String},
      (retryGo stub jitter delay attempt remaining).result = Except.ok s →
      ∃ i, stub i = Except.ok s := by
  intro remaining
  induction remaining with
  | zero =>
    intro attempt s h
    cases hst : stub attempt with
    | ok t =>
      simp [retryGo, hst] at h
      exact ⟨attempt, by rw [hst, h]⟩
    | error m => simp [retryGo, hst] at h
  | succ r ih =>
    intro attempt s h
    cases hst : stub attempt with
    | ok t =>
      simp [retryGo, hst] at h
      exact ⟨attempt, by rw [hst, h]⟩
    | error m =>
      by_cases hr : isRetryableError m = true
      · simp [retryGo, hst, hr] at h
        exact ih h
      · simp [retryGo, hst, hr] at h

theorem vertexNonStreaming_ne_ok_empty (r : VertexNonStreamResponse) :
    vertexNonStreaming r ≠ Except.ok "" := by
  intro h
  unfold vertexNonStreaming at h
  repeat' split at h
  all_goals simp_all [ite_eq_iff]

theorem geminiNonStreaming_ne_ok_empty (r : GeminiNonStreamResponse) :
    geminiNonStreaming r ≠ Except.ok "" := by
  intro h
  unfold geminiNonStreaming at h
  repeat' split at h
  all_goals simp_all [ite_eq_iff]

theorem vertexStreaming_ne_ok_empty (r : VertexStreamData) :
    vertexStreaming r ≠ Except.ok "" := by
  intro h
  unfold vertexStreaming at h
  repeat' split at h
  all_goals simp_all [ite_eq_iff]
  all_goals tauto

theorem geminiStreaming_ne_ok_empty (r : GeminiStreamData) :
    geminiStreaming r ≠ Except.ok "" := by
  intro h
  unfold geminiStreaming at h
  repeat' split at h
  all_goals simp_all [ite_eq_iff]

theorem attemptOutcome_ok_ne_empty {ev : ProviderEvent} {s : String}
    (h : attemptOutcome ev = Except.ok s) : s ≠ "" := by
  intro hs
  subst hs
  cases ev with
  | throwBefore m => exact absurd h (by simp [attemptOutcome])
  | vertexNS r => exact vertexNonStreaming_ne_ok_empty r h
  | vertexS r => exact vertexStreaming_ne_ok_empty r h
  | geminiNS r => exact geminiNonStreaming_ne_ok_empty r h
  | geminiNSThrow m b => exact absurd h (by simp [attemptOutcome])
  | geminiS r => exact geminiStreaming_ne_ok_empty r h

-- ---------------------------------------------------------------------------
-- Claim theorems.
-- ---------------------------------------------------------------------------

/-- Claim C1: an attempt failure whose message carries a block/safety
indicator is re-raised as the final error immediately — one attempt
executed from that point, zero retry sleeps — regardless of the remaining
attempt budget (quantified `remaining` on the loop, and any `maxRetries`,
including positive ones, at the top-level call). -/
theorem blocked_error_raised_immediately :
    (∀ (stub : Nat → Except String String) (jitter : Nat → ℚ) (delay : ℚ)
       (attempt remaining : Nat) (m : String),
       stub attempt = Except.error m → isBlockingError m = true →
       retryGo stub jitter delay attempt remaining =
         ⟨Except.error ⟨m, true, false⟩, [], 1⟩) ∧
    (∀ (maxRetries : Nat) (delay : ℚ) (events : Nat → ProviderEvent)
       (jitter : Nat → ℚ) (m : String),
       attemptOutcome (events 0) = Except.error m → isBlockingError m = true →
       callGenerativeAI maxRetries delay events jitter =
         ⟨Except.error ⟨m, true, false⟩, [], 1⟩) := by
  constructor
  · intro stub jitter delay attempt remaining m h hb
    have := @retryGo_error_not_retryable stub jitter delay attempt remaining m
      h (isRetryableError_eq_false_of_blocking hb)
    rw [this, hb]
  · intro maxRetries delay events jitter m h hb
    have := @retryGo_error_not_retryable (fun i => attemptOutcome (events i))
      jitter delay 0 maxRetries m h (isRetryableError_eq_false_of_blocking hb)
    rw [callGenerativeAI, this, hb]

/-- Witness for C1: a stub throwing a safety-signature error on attempt 0
with `maxRetries = 3 > 0` makes the call fail immediately, one attempt,
no sleeps. -/
theorem blocked_error_raised_immediately_witness :
    callGenerativeAI 3 1000
      (fun _ => ProviderEvent.throwBefore "Error: generation stopped for safety reasons")
      (fun _ => 0) =
      ⟨Except.error ⟨"Error: generation stopped for safety reasons", true, false⟩, [], 1⟩ :=
  blocked_error_raised_immediately.2 3 1000
    (fun _ => ProviderEvent.throwBefore "Error: generation stopped for safety reasons")
    (fun _ => 0) "Error: generation stopped for safety reasons" rfl (by decide)

/-- Claim C2 counterexample: a Fatal failure (neither content-blocked nor
matching a transient signature, e.g. a malformed-response-shape error) is
NOT retried even though `maxRetries = 2 > 0` attempts remain: the call
performs a single attempt with zero backoff sleeps and raises the final
error at once, contradicting the claim that only ContentBlocked
short-circuits the retry loop. -/
theorem fatal_error_retried_counterexample :
    isBlockingError "malformed response shape" = false ∧
    isRetryableError "malformed response shape" = false ∧
    0 < 2 ∧
    callGenerativeAI 2 1000
      (fun _ => ProviderEvent.throwBefore "malformed response shape") (fun _ => 0) =
      ⟨Except.error ⟨"malformed response shape", false, false⟩, [], 1⟩ := by
  refine ⟨by decide, by decide, by decide, ?_⟩
  exact retryGo_error_not_retryable rfl (by decide)

/-- Claim C2 amended: a failure that does not match a transient-fault
signature — whether ContentBlocked or Fatal — short-circuits the retry
loop: the final error is raised immediately with zero sleeps after a
single attempt; only Retryable failures are ever retried. -/
theorem non_retryable_error_never_retried :
    ∀ (maxRetries : Nat) (delay : ℚ) (events : Nat → ProviderEvent)
      (jitter : Nat → ℚ) (m : String),
      attemptOutcome (events 0) = Except.error m → isRetryableError m = false →
      callGenerativeAI maxRetries delay events jitter =
        ⟨Except.error ⟨m, isBlockingError m, false⟩, [], 1⟩ := by
  intro maxRetries delay events jitter m h hr
  rw [callGenerativeAI]
  exact retryGo_error_not_retryable h hr

/-- Witness for amended C2: a fatal (non-retryable, non-blocking) stub
error with `maxRetries = 2` yields one attempt and no sleeps. -/
theorem non_retryable_error_never_retried_witness :
    callGenerativeAI 2 1000
      (fun _ => ProviderEvent.throwBefore "malformed response shape") (fun _ => 0) =
      ⟨Except.error ⟨"malformed response shape", false, false⟩, [], 1⟩ :=
  non_retryable_error_never_retried 2 1000
    (fun _ => ProviderEvent.throwBefore "malformed response shape") (fun _ => 0)
    "malformed response shape" rfl (by decide)

/-- Claim C3: when every attempt fails with a retryable signature, the call
executes exactly `maxRetries + 1` attempts and then raises a final error
(the loop terminates within that bound by construction). -/
theorem allfail_attempt_count :
    ∀ (maxRetries : Nat) (delay : ℚ) (events : Nat → ProviderEvent) (jitter : Nat → ℚ),
      (∀ i, ∃ m, attemptOutcome (events i) = Except.error m ∧ isRetryableError m = true) →
      (callGenerativeAI maxRetries delay events jitter).attempts = maxRetries + 1 ∧
      ∃ e, (callGenerativeAI maxRetries delay events jitter).result = Except.error e := by
  intro maxRetries delay events jitter h
  exact retryGo_allfail h maxRetries 0

/-- Witness for C3: a stub always failing with "503" and `maxRetries = 2`
gives exactly 3 attempts and a final error. -/
theorem allfail_attempt_count_witness :
    (callGenerativeAI 2 1000 (fun _ => ProviderEvent.throwBefore "503") (fun _ => 7)).attempts = 3 ∧
    ∃ e, (callGenerativeAI 2 1000 (fun _ => ProviderEvent.throwBefore "503") (fun _ => 7)).result =
      Except.error e :=
  allfail_attempt_count 2 1000 (fun _ => ProviderEvent.throwBefore "503") (fun _ => 7)
    (fun _ => ⟨"503", rfl, by decide⟩)

/-- Claim C9: every successful return of `callGenerativeAI` is a non-empty
string — both streaming and non-streaming branches raise on an empty or
missing extracted text (the streaming branch after one fallback extraction
from the aggregated response), so the empty string never escapes. -/
theorem success_text_nonempty :
    ∀ (maxRetries : Nat) (delay : ℚ) (events : Nat → ProviderEvent)
      (jitter : Nat → ℚ) (s : String),
      (callGenerativeAI maxRetries delay events jitter).result = Except.ok s →
      s ≠ "" := by
  intro maxRetries delay events jitter s h
  obtain ⟨i, hi⟩ := retryGo_ok_of_stub h
  exact attemptOutcome_ok_ne_empty hi

/-- Witness for C9: a successful vertex non-streaming call returning "hi"
indeed returns a non-empty string. -/
theorem success_text_nonempty_witness :
    "hi" ≠ "" ∧
    (callGenerativeAI 3 1000
      (fun _ => ProviderEvent.vertexNS ⟨some "hi", none, []⟩) (fun _ => 0)).result =
      Except.ok "hi" :=
  ⟨success_text_nonempty 3 1000
      (fun _ => ProviderEvent.vertexNS ⟨some "hi", none, []⟩) (fun _ => 0) "hi" (by decide),
    by decide⟩

theorem retryGo_k_fail_then_ok {stub : Nat → Except String String}
    {jitter : Nat → ℚ} {delay : ℚ} :
    ∀ (k attempt remaining : Nat) {t : String}, k ≤ remaining →
      (∀ i, i < k → ∃ m, stub (attempt + i) = Except.error m ∧ isRetryableError m = true) →
      stub (attempt + k) = Except.ok t →
      retryGo stub jitter delay attempt remaining =
        ⟨Except.ok t,
         (List.range k).map (fun i => delay * 2 ^ (attempt + i) + jitter (attempt + i)),
         k + 1⟩ := by
  intro k
  induction k with
  | zero =>
    intro attempt remaining t _ _ hok
    rw [retryGo_ok (by simpa using hok)]
    simp
  | succ n ih =>
    intro attempt remaining t hle hfail hok
    obtain ⟨m, hm, hr⟩ := hfail 0 (Nat.succ_pos n)
    rw [Nat.add_zero] at hm
    cases remaining with
    | zero => omega
    | succ rr =>
      have hfail1 : ∀ i, i < n →
          ∃ m1, stub (attempt + 1 + i) = Except.error m1 ∧ isRetryableError m1 = true := by
        intro i hi
        have := hfail (i + 1) (by omega)
        rwa [show attempt + (i + 1) = attempt + 1 + i by omega] at this
      have hok1 : stub (attempt + 1 + n) = Except.ok t := by
        rwa [show attempt + (n + 1) = attempt + 1 + n by omega] at hok
      have hrest := ih (attempt + 1) rr (by omega) hfail1 hok1
      have hmap :
          (delay * 2 ^ attempt + jitter attempt) ::
            (List.range n).map (fun i => delay * 2 ^ (attempt + 1 + i) + jitter (attempt + 1 + i)) =
          (List.range (n + 1)).map (fun i => delay * 2 ^ (attempt + i) + jitter (attempt + i)) := by
        rw [List.range_succ_eq_map, List.map_cons, List.map_map]
        refine congrArg₂ _ (by simp) ?_
        refine List.map_congr_left ?_
        intro i _
        simp only [Function.comp_apply, Nat.succ_eq_add_one]
        rw [show attempt + (i + 1) = attempt + 1 + i by omega]
      simp only [retryGo, hm, hr, if_pos, hrest]
      rw [CallTrace.mk.injEq]
      exact ⟨rfl, hmap, rfl⟩

/-- Claim C4: a provider stub failing with a retryable signature on the
first `k` attempts (`k < maxRetries`) and succeeding on attempt `k` makes
the call return the success text after exactly `k` backoff sleeps, where —
for jitter drawn from `[0, 500)` — the sleep before the retry of attempt
index `i` lasts at least `retryDelayMs * 2 ^ i` and strictly less than
`retryDelayMs * 2 ^ i + 500`. -/
theorem backoff_sleep_schedule :
    ∀ (maxRetries k : Nat) (delay : ℚ) (events : Nat → ProviderEvent)
      (jitter : Nat → ℚ) (t : String),
      k < maxRetries →
      (∀ i, 0 ≤ jitter i ∧ jitter i < 500) →
      (∀ i, i < k → ∃ m, attemptOutcome (events i) = Except.error m ∧ isRetryableError m = true) →
      attemptOutcome (events k) = Except.ok t →
      (callGenerativeAI maxRetries delay events jitter).result = Except.ok t ∧
      (callGenerativeAI maxRetries delay events jitter).sleeps.length = k ∧
      ∀ i, (hi : i < (callGenerativeAI maxRetries delay events jitter).sleeps.length) →
        delay * 2 ^ i ≤ (callGenerativeAI maxRetries delay events jitter).sleeps[i] ∧
        (callGenerativeAI maxRetries delay events jitter).sleeps[i] < delay * 2 ^ i + 500 := by
  intro maxRetries k delay events jitter t hk hj hfail hok
  have htrace := @retryGo_k_fail_then_ok (fun i => attemptOutcome (events i))
    jitter delay k 0 maxRetries t (Nat.le_of_lt hk)
    (fun i hi => by simpa using hfail i hi) (by simpa using hok)
  rw [callGenerativeAI, htrace]
  refine ⟨rfl, by simp, ?_⟩
  intro i hi
  simp only [List.length_map, List.length_range] at hi
  simp only [List.getElem_map, List.getElem_range, Nat.zero_add]
  constructor
  · exact le_add_of_nonneg_right (hj i).1
  · exact add_lt_add_left (hj i).2 _

/-- Witness for C4: with `maxRetries = 3`, `retryDelayMs = 1000`, constant
jitter 250, and a stub failing with "503" on attempts 0 and 1 then
succeeding with "ok!", the call returns "ok!" after exactly 2 sleeps. -/
theorem backoff_sleep_schedule_witness :
    (callGenerativeAI 3 1000
      (fun i => if i < 2 then ProviderEvent.throwBefore "503"
                else ProviderEvent.vertexNS ⟨some "ok!", none, []⟩)
      (fun _ => 250)).result = Except.ok "ok!" ∧
    (callGenerativeAI 3 1000
      (fun i => if i < 2 then ProviderEvent.throwBefore "503"
                else ProviderEvent.vertexNS ⟨some "ok!", none, []⟩)
      (fun _ => 250)).sleeps.length = 2 := by
  have h := backoff_sleep_schedule 3 2 1000
    (fun i => if i < 2 then ProviderEvent.throwBefore "503"
              else ProviderEvent.vertexNS ⟨some "ok!", none, []⟩)
    (fun _ => 250) "ok!" (by decide) (fun i => by norm_num)
    (fun i hi => ⟨"503", by simp [attemptOutcome, hi], by decide⟩) (by decide)
  exact ⟨h.1, h.2.1⟩

theorem jsToLower_append (x y : String) :
    jsToLower (x ++ y) = jsToLower x ++ jsToLower y := by
  have hd : (x ++ y).data = x.data ++ y.data := String.data_append x y
  show String.mk ((x ++ y).data.map Char.toLower) = _
  rw [hd, List.map_append]
  rfl

theorem jsContains_append_right {x pat : String} (y : String)
    (h : jsContains x pat = true) : jsContains (x ++ y) pat = true := by
  unfold jsContains at h ⊢
  rw [List.any_eq_true] at h ⊢
  obtain ⟨i, hmem, hpre⟩ := h
  rw [List.mem_range] at hmem
  refine ⟨i, ?_, ?_⟩
  · rw [List.mem_range, String.data_append, List.length_append]
    omega
  · rw [String.data_append, List.drop_append_of_le_length (by omega)]
    rw [List.isPrefixOf_iff_prefix] at hpre ⊢
    exact hpre.trans (List.prefix_append _ _)

theorem isBlockingError_append (pre s : String)
    (h : isBlockingError pre = true) : isBlockingError (pre ++ s) = true := by
  unfold isBlockingError at h ⊢
  rw [Bool.or_eq_true] at h ⊢
  rw [jsToLower_append]
  rcases h with h | h
  · exact Or.inl (jsContains_append_right _ h)
  · exact Or.inr (jsContains_append_right _ h)

/-- Claim C5 counterexample: on the gemini provider, a non-streaming
response whose block reason is "OTHER" — one of the values the claim
says are "not treated as blocked" — IS treated as blocked: the attempt
raises a blocked-classified error even though valid text was extracted. -/
theorem gemini_other_block_reason_counterexample :
    geminiNonStreaming ⟨Except.ok "hello", some "OTHER", none⟩ =
      Except.error "Gemini Content generation blocked. Response Reason: OTHER" ∧
    isBlockingError "Gemini Content generation blocked. Response Reason: OTHER" = true := by
  constructor <;> decide

/-- Claim C5 amended: the unspecified/other exemption exists only on the
vertex path: a vertex non-streaming response raises a blocked error iff its
block reason is present and neither BLOCK_REASON_UNSPECIFIED nor OTHER,
while on the gemini path ANY truthy response-level block reason (including
OTHER) raises a blocked error. -/
theorem nonstreaming_block_reason_handling :
    ∀ (r : VertexNonStreamResponse) (g : GeminiNonStreamResponse),
      (raisesBlocked (vertexNonStreaming r) ↔ vertexBlockCond r.blockReason = true) ∧
      (truthyStr g.blockReason = true → raisesBlocked (geminiNonStreaming g)) := by
  intro r g
  constructor
  · constructor
    · rintro ⟨m, hm, hb⟩
      by_contra hc
      rw [Bool.not_eq_true] at hc
      unfold vertexNonStreaming at hm
      rw [hc] at hm
      simp only [Bool.false_eq_true, if_false] at hm
      revert hm
      split
      · split
        · intro hm
          rw [← Except.error.inj hm] at hb
          exact absurd hb (by decide)
        · intro hm
          exact Except.noConfusion hm
      · intro hm
        rw [← Except.error.inj hm] at hb
        exact absurd hb (by decide)
    · intro hc
      refine ⟨"Vertex Content generation blocked. Reason: " ++ r.blockReason.getD "", ?_, ?_⟩
      · unfold vertexNonStreaming
        rw [hc]
        simp
      · exact isBlockingError_append _ _ (by decide)
  · intro hg
    refine ⟨"Gemini Content generation blocked. Response Reason: " ++ g.blockReason.getD "", ?_, ?_⟩
    · unfold geminiNonStreaming
      rw [hg]
      simp
    · exact isBlockingError_append _ _ (by decide)

/-- Witness for amended C5: a vertex response with block reason SAFETY
raises a blocked error; one with block reason OTHER does not; a gemini
response with block reason OTHER raises a blocked error. -/
theorem nonstreaming_block_reason_handling_witness :
    raisesBlocked (vertexNonStreaming ⟨some "hello", some "SAFETY", []⟩) ∧
    ¬raisesBlocked (vertexNonStreaming ⟨some "hello", some "OTHER", []⟩) ∧
    raisesBlocked (geminiNonStreaming ⟨Except.ok "hello", some "OTHER", none⟩) := by
  refine ⟨?_, ?_, ?_⟩
  · exact (nonstreaming_block_reason_handling ⟨some "hello", some "SAFETY", []⟩
      ⟨Except.ok "hello", some "OTHER", none⟩).1.mpr (by decide)
  · intro h
    have := (nonstreaming_block_reason_handling ⟨some "hello", some "OTHER", []⟩
      ⟨Except.ok "hello", some "OTHER", none⟩).1.mp h
    exact absurd this (by decide)
  · exact (nonstreaming_block_reason_handling ⟨some "hello", some "OTHER", []⟩
      ⟨Except.ok "hello", some "OTHER", none⟩).2 (by decide)

/-- Claim C6: the streaming execution path, accumulating the text deltas
of chunks `[a, b, c]` in order, returns the same final text as the
non-streaming execution path returning the single concatenated text
`a ++ b ++ c` — on both providers, for any successful (unblocked,
non-empty) response. -/
theorem streaming_matches_nonstreaming :
    ∀ a b c : String, a ++ b ++ c ≠ "" →
      vertexStreaming ⟨[some a, some b, some c], none, [], none⟩ =
        Except.ok (a ++ b ++ c) ∧
      vertexNonStreaming ⟨some (a ++ b ++ c), none, []⟩ =
        Except.ok (a ++ b ++ c) ∧
      geminiStreaming ⟨[Except.ok a, Except.ok b, Except.ok c],
          Except.ok ⟨none, none, Except.ok (a ++ b ++ c)⟩⟩ =
        Except.ok (a ++ b ++ c) ∧
      geminiNonStreaming ⟨Except.ok (a ++ b ++ c), none, none⟩ =
        Except.ok (a ++ b ++ c) := by
  intro a b c h
  have hacc : vertexAccumulate [some a, some b, some c] = a ++ b ++ c := rfl
  have hgacc : geminiAccumulate [Except.ok a, Except.ok b, Except.ok c] "" =
      Except.ok (a ++ b ++ c) := rfl
  refine ⟨?_, ?_, ?_, ?_⟩
  · unfold vertexStreaming
    rw [hacc]
    simp [vertexBlockCond, h]
  · unfold vertexNonStreaming
    simp [vertexBlockCond, h]
  · unfold geminiStreaming
    rw [hgacc]
    simp [truthyStr, h]
  · unfold geminiNonStreaming
    simp [truthyStr, h]

/-- Witness for C6: concrete chunks "Hel", "lo ", "world". -/
theorem streaming_matches_nonstreaming_witness :
    vertexStreaming ⟨[some "Hel", some "lo ", some "world"], none, [], none⟩ =
      Except.ok "Hello world" ∧
    vertexNonStreaming ⟨some "Hello world", none, []⟩ = Except.ok "Hello world" := by
  have h := streaming_matches_nonstreaming "Hel" "lo " "world" (by decide)
  exact ⟨h.1, h.2.1⟩

/-- Claim C7: `validateConfig` terminates the process with a descriptive
error exactly when the selected provider's mandatory credential is absent
(vertex without a truthy GOOGLE_CLOUD_PROJECT, gemini without a truthy
GEMINI_API_KEY); with the credential present it returns without exiting. -/
theorem validateConfig_exits_iff_credential_missing :
    ∀ env : Env,
      (getAIProvider env = AIProvider.vertex → truthyStr env.GOOGLE_CLOUD_PROJECT = false →
        validateConfig env = Except.error
          "Error: AI_PROVIDER is 'vertex' but GOOGLE_CLOUD_PROJECT environment variable is not set.") ∧
      (getAIProvider env = AIProvider.gemini → truthyStr env.GEMINI_API_KEY = false →
        validateConfig env = Except.error
          "Error: AI_PROVIDER is 'gemini' but GEMINI_API_KEY environment variable is not set.") ∧
      (getAIProvider env = AIProvider.vertex → truthyStr env.GOOGLE_CLOUD_PROJECT = true →
        validateConfig env = Except.ok ()) ∧
      (getAIProvider env = AIProvider.gemini → truthyStr env.GEMINI_API_KEY = true →
        validateConfig env = Except.ok ()) := by
  intro env
  refine ⟨?_, ?_, ?_, ?_⟩ <;> intro hp hc <;> simp [validateConfig, hp, hc]

/-- Witness for C7: with no environment variables set the default provider
is vertex and validation exits with the project error; with AI_PROVIDER set
to "GEMINI" and a key present, validation succeeds. -/
theorem validateConfig_exits_iff_credential_missing_witness :
    validateConfig ⟨none, none, none⟩ = Except.error
      "Error: AI_PROVIDER is 'vertex' but GOOGLE_CLOUD_PROJECT environment variable is not set." ∧
    validateConfig ⟨some "GEMINI", none, some "key123"⟩ = Except.ok () := by
  constructor
  · exact (validateConfig_exits_iff_credential_missing ⟨none, none, none⟩).1
      (by decide) (by decide)
  · exact (validateConfig_exits_iff_credential_missing
      ⟨some "GEMINI", none, some "key123"⟩).2.2.2 (by decide) (by decide)

/-- Claim C8: on the vertex provider, when a web-search
(`googleSearchRetrieval`) declaration is present in the tool list, the
grounding-capable preview surface is selected instead of the default one,
and when other tool declarations are present alongside the search
declaration, the request keeps only the search tools and drops the
others. -/
theorem grounding_preview_and_tool_filtering :
    ∀ ts : List VTool,
      (∃ t ∈ ts, t.googleSearchRetrieval = true) →
      vertexModelSelection (some ts) = VertexModelPath.previewPath ∧
      ((∃ t ∈ ts, t.googleSearchRetrieval = false) →
        filteredToolsForVertex AIProvider.vertex (some ts) =
          some (ts.filter (fun t => t.googleSearchRetrieval)) ∧
        ∀ t ∈ ts.filter (fun t => t.googleSearchRetrieval), t.googleSearchRetrieval = true) := by
  intro ts hsearch
  have hg : isGroundingRequested (some ts) = true := by
    simp only [isGroundingRequested, List.any_eq_true]
    obtain ⟨t, ht, hflag⟩ := hsearch
    exact ⟨t, ht, hflag⟩
  constructor
  · simp [vertexModelSelection, hg]
  · intro hother
    have hlen : ts.length > 1 := by
      obtain ⟨t1, ht1, hf1⟩ := hsearch
      obtain ⟨t2, ht2, hf2⟩ := hother
      match ts, ht1, ht2 with
      | [], h1, _ => exact absurd h1 (List.not_mem_nil t1)
      | [x], h1, h2 =>
        rw [List.mem_singleton] at h1 h2
        rw [h1] at hf1
        rw [h2] at hf2
        rw [hf1] at hf2
        exact absurd hf2 (by decide)
      | x :: y :: rest, _, _ => simp [List.length_cons]
    constructor
    · simp [filteredToolsForVertex, hg, hlen]
    · intro t ht
      exact (List.mem_filter.mp ht).2

/-- Witness for C8: a search tool alongside a non-search tool selects the
preview surface and the filtered list keeps only the search tool. -/
theorem grounding_preview_and_tool_filtering_witness :
    vertexModelSelection (some [⟨true⟩, ⟨false⟩]) = VertexModelPath.previewPath ∧
    filteredToolsForVertex AIProvider.vertex (some [⟨true⟩, ⟨false⟩]) = some [⟨true⟩] := by
  have h := grounding_preview_and_tool_filtering [⟨true⟩, ⟨false⟩]
    ⟨⟨true⟩, by decide, rfl⟩
  exact ⟨h.1, (h.2 ⟨⟨false⟩, by decide, rfl⟩).1⟩

/-- Claim C10: provider selection returns gemini iff the AI_PROVIDER
environment variable lowercases to exactly "gemini"; any other value —
unset, misspelled, or with stray characters — selects vertex, with no
error path in the function. -/
theorem provider_selection_gemini_iff :
    ∀ env : Env,
      (getAIProvider env = AIProvider.gemini ↔
        env.AI_PROVIDER.map jsToLower = some "gemini") ∧
      (env.AI_PROVIDER.map jsToLower ≠ some "gemini" →
        getAIProvider env = AIProvider.vertex) := by
  intro env
  unfold getAIProvider
  by_cases h : env.AI_PROVIDER.map jsToLower = some "gemini" <;> simp [h]

/-- Witness for C10: "GeMiNi" selects gemini; an unset variable and the
misspelling "gemini " (trailing space) select vertex. -/
theorem provider_selection_gemini_iff_witness :
    getAIProvider ⟨some "GeMiNi", none, none⟩ = AIProvider.gemini ∧
    getAIProvider ⟨none, none, none⟩ = AIProvider.vertex ∧
    getAIProvider ⟨some "gemini ", none, none⟩ = AIProvider.vertex := by
  refine ⟨?_, ?_, ?_⟩
  · exact (provider_selection_gemini_iff ⟨some "GeMiNi", none, none⟩).1.mpr (by decide)
  · exact (provider_selection_gemini_iff ⟨none, none, none⟩).2 (by decide)
  · exact (provider_selection_gemini_iff ⟨some "gemini ", none, none⟩).2 (by decide)

end VertexMcp
